import Mathlib

/-!
Verification of the HARMONIE forecast-to-dfs2 processing pipeline
(`harmonie_forecast_to_dfs2.ipynb`).

The development shallowly embeds the numerical core of the notebook:

* de-accumulation of cumulative variables (`ds[var].data[1:] = data[1:] - data[:-1]`),
* the fixed unit conversions (Pa → kPa, K → °C, J → MJ → kJ),
* the daylight-factor computation (`get_daylight_factors`),
* the soil-heat-flux loop with its `copy.deepcopy(rn)` (modelled as a two-reference store),
* the Makkink and Penman-Monteith potential-evapotranspiration formulas.

Exact arithmetic (ℚ for the grid bookkeeping, ℝ for the transcendental
formulas) stands in for the notebook's floating point.  External inputs
(the sunrise-sunset web API and the timezone database) are abstracted as
function parameters, exactly at the boundary where the notebook calls them.
-/

/-! ### Grids and de-accumulation

A spatial grid slice is a function from (y, x) indices to a value; a
time-varying field is a list of slices, one per timestep.  The notebook
de-accumulates with `data = ds[var].data; ds[var].data[1:] = data[1:] - data[:-1]`,
where numpy fully evaluates the right-hand side (from the original values)
before the assignment, so the result is the forward difference of the
original series with timestep 0 kept. -/

abbrev CellGrid : Type := ℕ → ℕ → ℚ

/-- `ds[var].data[1:] = data[1:] - data[:-1]` from the notebook's
de-accumulation cell: the head is kept, every later entry is replaced by
its forward difference with the previous original entry.  Generic in the
value type so it applies both to whole grid slices and to single-cell
series. -/
def deaccumulate {α : Type} [Sub α] : List α → List α
  | [] => []
  | a :: rest => a :: List.zipWith (fun u v => u - v) rest (a :: rest)

/-- `accumulated_vars = ['grad', 'nswrf', 'nlwrf', 'precip']` from the notebook. -/
def accumulated_vars : List String := ["grad", "nswrf", "nlwrf", "precip"]

/-- The de-accumulation loop `for var in accumulated_vars: ...` applied to a
dataset (a mapping from variable identifier to time-ordered field data):
variables in `accumulated_vars` are de-accumulated, all others are left as is. -/
def deacc_dataset (ds : String → List CellGrid) : String → List CellGrid :=
  fun var => if var ∈ accumulated_vars then deaccumulate (ds var) else ds var

/-- Value of a time-ordered field at timestep `i` and cell `(y, x)`
(out-of-range timesteps read as the zero slice). -/
def cellAt (f : List CellGrid) (i y x : ℕ) : ℚ :=
  (f.getD i (fun _ _ => 0)) y x

theorem deaccumulate_length {α : Type} [Sub α] (v : List α) :
    (deaccumulate v).length = v.length := by
  cases v with
  | nil => rfl
  | cons a rest => simp [deaccumulate]

theorem zipWith_sub_getD {α : Type} [Sub α] (l l' : List α) (j : ℕ) (d : α)
    (h1 : j < l.length) (h2 : j < l'.length) :
    (List.zipWith (fun u v => u - v) l l').getD j d = l.getD j d - l'.getD j d := by
  induction l generalizing l' j with
  | nil => simp at h1
  | cons a t ih =>
      cases l' with
      | nil => simp at h2
      | cons b t' =>
          cases j with
          | zero => simp
          | succ k =>
              simp only [List.zipWith_cons_cons, List.getD_cons_succ]
              exact ih t' k (by simpa using h1) (by simpa using h2)

theorem deaccumulate_getD_zero (f : List CellGrid) (y x : ℕ) :
    cellAt (deaccumulate f) 0 y x = cellAt f 0 y x := by
  cases f with
  | nil => rfl
  | cons a rest => rfl

theorem deaccumulate_getD_succ (f : List CellGrid) (y x i : ℕ)
    (hi : 0 < i) (hlen : i < f.length) :
    cellAt (deaccumulate f) i y x = cellAt f i y x - cellAt f (i - 1) y x := by
  cases f with
  | nil => simp at hlen
  | cons a rest =>
      cases i with
      | zero => exact absurd hi (lt_irrefl 0)
      | succ j =>
          have hj : j < rest.length := by simpa using hlen
          have hj' : j < (a :: rest).length := Nat.lt_succ_of_lt (by simpa using hlen)
          unfold cellAt deaccumulate
          simp only [List.getD_cons_succ, Nat.succ_sub_one]
          rw [zipWith_sub_getD rest (a :: rest) j _ hj hj']
          rfl

theorem deacc_partial_sum (u : List ℚ) : ∀ (prev : ℚ) (i : ℕ), i < u.length →
    prev + ((List.zipWith (fun a b => a - b) u (prev :: u)).take (i + 1)).sum
      = u.getD i 0 := by
  induction u with
  | nil => intro prev i h; simp at h
  | cons b t ih =>
      intro prev i h
      cases i with
      | zero => simp
      | succ j =>
          have hj : j < t.length := by simpa using h
          simp only [List.zipWith_cons_cons, List.take_succ_cons, List.sum_cons,
            List.getD_cons_succ]
          have hrec := ih b j hj
          linarith

/-- Single-cell example series and grid field used to instantiate the
de-accumulation theorems on concrete data. -/
def exGrid (q : ℚ) : CellGrid := fun _ _ => q

def exField : List CellGrid := [exGrid 0, exGrid 5, exGrid 5, exGrid 12]

def exDataset : String → List CellGrid := fun _ => exField

/-- C1: de-accumulation replaces every timestep `i ≥ 1` of a cumulative
variable with `value[i] - value[i-1]` independently per `(y, x)` cell,
leaves timestep 0 unchanged, applies exactly to the four variables declared
cumulative and leaves every other variable untouched; on the series
`[0, 5, 5, 12]` it yields `[0, 5, 0, 7]`. -/
theorem deaccumulation_forward_difference :
    (∀ (f : List CellGrid) (y x i : ℕ), 0 < i → i < f.length →
        cellAt (deaccumulate f) i y x = cellAt f i y x - cellAt f (i - 1) y x)
    ∧ (∀ (f : List CellGrid) (y x : ℕ),
        cellAt (deaccumulate f) 0 y x = cellAt f 0 y x)
    ∧ (∀ (ds : String → List CellGrid) (var : String), var ∈ accumulated_vars →
        deacc_dataset ds var = deaccumulate (ds var))
    ∧ (∀ (ds : String → List CellGrid) (var : String), var ∉ accumulated_vars →
        deacc_dataset ds var = ds var)
    ∧ deaccumulate ([0, 5, 5, 12] : List ℚ) = [0, 5, 0, 7] := by
  refine ⟨deaccumulate_getD_succ, deaccumulate_getD_zero, ?_, ?_, ?_⟩
  · intro ds var hv
    simp [deacc_dataset, hv]
  · intro ds var hv
    simp [deacc_dataset, hv]
  · norm_num [deaccumulate]

/-- Witness for C1 on the concrete field `[0, 5, 5, 12]` and on a variable
that is not cumulative. -/
theorem deaccumulation_forward_difference_witness :
    cellAt (deaccumulate exField) 3 0 0 = cellAt exField 3 0 0 - cellAt exField 2 0 0
    ∧ deacc_dataset exDataset "temp" = exDataset "temp" :=
  ⟨deaccumulation_forward_difference.1 exField 0 0 3 (by norm_num)
      (by norm_num [exField]),
   deaccumulation_forward_difference.2.2.2.1 exDataset "temp"
      (by simp [accumulated_vars])⟩

/-- C2: de-accumulating then re-accumulating by cumulative sum from
timestep 0 reproduces the original series exactly: for every series `v`
and every index `i < v.length`, the sum of the first `i + 1` de-accumulated
values equals `v[i]`. -/
theorem deaccumulation_roundtrip (v : List ℚ) (i : ℕ) (h : i < v.length) :
    ((deaccumulate v).take (i + 1)).sum = v.getD i 0 := by
  cases v with
  | nil => simp at h
  | cons a rest =>
      cases i with
      | zero => simp [deaccumulate]
      | succ j =>
          have hj : j < rest.length := by simpa using h
          simp only [deaccumulate, List.take_succ_cons, List.sum_cons,
            List.getD_cons_succ]
          exact deacc_partial_sum rest a j hj

/-- Witness for C2: re-accumulating `deaccumulate [0, 5, 5, 12]` up to the
last index gives back `12`. -/
theorem deaccumulation_roundtrip_witness :
    3 < ([0, 5, 5, 12] : List ℚ).length
    ∧ ((deaccumulate ([0, 5, 5, 12] : List ℚ)).take 4).sum
        = ([0, 5, 5, 12] : List ℚ).getD 3 0 :=
  ⟨by norm_num, deaccumulation_roundtrip [0, 5, 5, 12] 3 (by norm_num)⟩

/-! ### Unit conversions

The notebook's conversion cells:
`ds['pres'] = ds['pres'] * 1E-3`, `ds['temp'] = ds['temp'] - 273.15`,
`ds['grad'] = ds['grad'] * 1E-6`, `ds['rn'] = ds['rn'] * 1E-6` and, in the
export cell, `ds['grad'] = ds['grad'] * 1000`, `ds['rn'] = ds['rn'] * 1000`. -/

def convert_pressure (x : ℚ) : ℚ := x * 1e-3

def convert_temperature (x : ℚ) : ℚ := x - 273.15

def joule_to_megajoule (x : ℚ) : ℚ := x * 1e-6

def megajoule_to_kilojoule (x : ℚ) : ℚ := x * 1000

/-- C7: the per-variable unit conversions are exactly the documented affine
transforms: pressure is scaled by `1e-3` (so `101325` Pa gives exactly
`101.325` kPa), temperature has `273.15` subtracted, and the staged energy
conversion (`* 1e-6` then `* 1000`) is a net `* 1e-3` joule→kilojoule scaling. -/
theorem unit_conversion_affine :
    convert_pressure 101325 = 101.325
    ∧ (∀ x : ℚ, convert_pressure x = x * 1e-3)
    ∧ (∀ x : ℚ, convert_temperature x = x - 273.15)
    ∧ (∀ x : ℚ, megajoule_to_kilojoule (joule_to_megajoule x) = x * 1e-3) := by
  refine ⟨by norm_num [convert_pressure], fun x => rfl, fun x => rfl, fun x => ?_⟩
  unfold joule_to_megajoule megajoule_to_kilojoule
  ring

/-! ### Daylight factors

`get_daylight_factors` queries the sunrise-sunset web API for each
timestamp's date and asks the timezone database whether daylight-saving
time is in effect.  Both external dependencies are abstracted as function
parameters (`lookup`, `dst`); the captured logic is the decimal-hour
arithmetic and the +1 / +2 hour offset. -/

/-- A forecast timestamp; only the pieces the notebook reads are modelled:
the date (as an abstract index used for the sunrise-sunset lookup) and the
hour and minute of the time of day. -/
structure Timestamp where
  dateIdx : ℕ
  hour : ℕ
  minute : ℕ

/-- A time of day as parsed from the sunrise-sunset API response
(`datetime.strptime(r['sunrise'], '%I:%M:%S %p').time()`). -/
structure TimeOfDay where
  hour : ℕ
  minute : ℕ
  second : ℕ

/-- `pd.to_datetime(timestep).hour + pd.to_datetime(timestep).minute / 60`. -/
def tsHour (t : Timestamp) : ℚ := t.hour + t.minute / 60

/-- `time.hour + time.minute / 60.0` for an API-reported time of day. -/
def timeHour (t : TimeOfDay) : ℚ := t.hour + t.minute / 60

/-- `get_daylight_factors` from the notebook: for each timestep, look up
sunrise and sunset for its date, set `daylight = 2` when daylight-saving
time is in effect and `1` otherwise, and return
`(sunrise.hour + sunrise.minute/60 + daylight, sunset.hour + sunset.minute/60 + daylight)`. -/
def get_daylight_factors (timeseries : List Timestamp)
    (lookup : ℕ → TimeOfDay × TimeOfDay) (dst : Timestamp → Bool) :
    List (ℚ × ℚ) :=
  timeseries.map fun ts =>
    let r := lookup ts.dateIdx
    let daylight : ℚ := if dst ts then 2 else 1
    (timeHour r.1 + daylight, timeHour r.2 + daylight)

/-- C8: for every timestamp in the time axis, `get_daylight_factors` adds
exactly 1 hour to the looked-up sunrise and sunset decimal hours when
standard time is in effect, and exactly 2 hours under daylight-saving time;
the returned pair is `(sunrise.hour + sunrise.minute/60 + offset,
sunset.hour + sunset.minute/60 + offset)`. -/
theorem daylight_factors_offset (timeseries : List Timestamp)
    (lookup : ℕ → TimeOfDay × TimeOfDay) (dst : Timestamp → Bool)
    (i : ℕ) (h : i < timeseries.length) :
    (dst (timeseries.getD i ⟨0, 0, 0⟩) = false →
      (get_daylight_factors timeseries lookup dst).getD i (0, 0)
        = ((lookup (timeseries.getD i ⟨0, 0, 0⟩).dateIdx).1.hour
             + ((lookup (timeseries.getD i ⟨0, 0, 0⟩).dateIdx).1.minute : ℚ) / 60 + 1,
           (lookup (timeseries.getD i ⟨0, 0, 0⟩).dateIdx).2.hour
             + ((lookup (timeseries.getD i ⟨0, 0, 0⟩).dateIdx).2.minute : ℚ) / 60 + 1))
    ∧ (dst (timeseries.getD i ⟨0, 0, 0⟩) = true →
      (get_daylight_factors timeseries lookup dst).getD i (0, 0)
        = ((lookup (timeseries.getD i ⟨0, 0, 0⟩).dateIdx).1.hour
             + ((lookup (timeseries.getD i ⟨0, 0, 0⟩).dateIdx).1.minute : ℚ) / 60 + 2,
           (lookup (timeseries.getD i ⟨0, 0, 0⟩).dateIdx).2.hour
             + ((lookup (timeseries.getD i ⟨0, 0, 0⟩).dateIdx).2.minute : ℚ) / 60 + 2)) := by
  have hlen : i < (get_daylight_factors timeseries lookup dst).length := by
    simpa [get_daylight_factors] using h
  have hget : (get_daylight_factors timeseries lookup dst).getD i (0, 0)
      = (get_daylight_factors timeseries lookup dst)[i] :=
    List.getD_eq_getElem _ _ hlen
  have hts : timeseries.getD i ⟨0, 0, 0⟩ = timeseries[i] :=
    List.getD_eq_getElem _ _ h
  constructor
  · intro hdst
    rw [hget, hts] at *
    simp only [get_daylight_factors, List.getElem_map]
    rw [hts] at hdst
    simp [hdst, timeHour]
  · intro hdst
    rw [hget, hts] at *
    simp only [get_daylight_factors, List.getElem_map]
    rw [hts] at hdst
    simp [hdst, timeHour]

/-- Concrete inputs used to instantiate the daylight-factor and PET
theorems: a single timestep at 12:00 whose date looks up a 06:00 sunrise
and an 18:00 sunset, with daylight-saving time not in effect. -/
def demoTimes : List Timestamp := [⟨0, 12, 0⟩]

def demoLookup : ℕ → TimeOfDay × TimeOfDay := fun _ => (⟨6, 0, 0⟩, ⟨18, 0, 0⟩)

def demoDst : Timestamp → Bool := fun _ => false

/-- Witness for C8 at the concrete single-timestep series. -/
theorem daylight_factors_offset_witness :
    0 < demoTimes.length
    ∧ (demoDst (demoTimes.getD 0 ⟨0, 0, 0⟩) = false →
      (get_daylight_factors demoTimes demoLookup demoDst).getD 0 (0, 0)
        = ((demoLookup (demoTimes.getD 0 ⟨0, 0, 0⟩).dateIdx).1.hour
             + ((demoLookup (demoTimes.getD 0 ⟨0, 0, 0⟩).dateIdx).1.minute : ℚ) / 60 + 1,
           (demoLookup (demoTimes.getD 0 ⟨0, 0, 0⟩).dateIdx).2.hour
             + ((demoLookup (demoTimes.getD 0 ⟨0, 0, 0⟩).dateIdx).2.minute : ℚ) / 60 + 1)) :=
  ⟨by norm_num [demoTimes],
   (daylight_factors_offset demoTimes demoLookup demoDst 0
      (by norm_num [demoTimes])).1⟩

/-! ### The soil-heat-flux loop and the PET formulas

`calculate_penman_monteith` starts with `G = copy.deepcopy(rn)` and then
overwrites each timestep slice of `G` with `0.1 * rn[i,:,:]` or
`0.5 * rn[i,:,:]`.  To state what the deep copy guarantees, the two array
objects are modelled as a two-reference store: `Ref.gref` is the freshly
allocated copy, `Ref.rref` the original `rn` object; slice assignment
writes through one reference and the loop reads `rn` through the other. -/

abbrev GridF : Type := ℕ → ℕ → ℕ → ℝ

/-- The two array objects live in `calculate_penman_monteith` after
`G = copy.deepcopy(rn)`: the copy (`gref`) and the original (`rref`). -/
inductive Ref : Type
  | gref : Ref
  | rref : Ref
deriving DecidableEq

abbrev Store : Type := Ref → GridF

/-- `A[i,:,:] = v`: replace timestep slice `i` of the array object behind
`ref`, leaving the other array object untouched. -/
def writeSlice (s : Store) (ref : Ref) (i : ℕ) (v : ℕ → ℕ → ℝ) : Store :=
  fun rf => if rf = ref then (fun t => if t = i then v else s rf t) else s rf

/-- The loop
`for i, (sunrise, sunset) in enumerate(daylight_factors): ... G[i,:,:] = 0.1 * rn[i,:,:] ... else ... 0.5 * rn[i,:,:]`,
with `hour = timeseries[i].hour + timeseries[i].minute / 60`.  The loop
index starts at `i` and each iteration writes one slice of `G` through
`Ref.gref`, reading `rn` through `Ref.rref`. -/
noncomputable def gLoopAux (timeseries : List Timestamp) :
    List (ℚ × ℚ) → ℕ → Store → Store
  | [], _, s => s
  | p :: rest, i, s =>
      gLoopAux timeseries rest (i + 1)
        (writeSlice s Ref.gref i (fun y x =>
          (if p.1 ≤ tsHour (timeseries.getD i ⟨0, 0, 0⟩)
              ∧ tsHour (timeseries.getD i ⟨0, 0, 0⟩) < p.2
            then (0.1 : ℝ) else 0.5) * s Ref.rref i y x))

/-- The full G-flux adjustment: run the enumerated loop from index 0 on the
store produced by `G = copy.deepcopy(rn)` (both references initially hold
the contents of `rn`). -/
noncomputable def gLoop (timeseries : List Timestamp) (factors : List (ℚ × ℚ))
    (s : Store) : Store :=
  gLoopAux timeseries factors 0 s

/-- The element-wise body of `calculate_penman_monteith` (everything after
the G-flux loop): constants `CP = 1.013e-3` and `pet_factor = 37`, derived
values `lam`, `gam`, `es`, `ea`, `s`, the wind-speed adjustment `u2`, the
hourly Penman-Monteith equation and the final `clip(min=0)`. -/
noncomputable def pm_formula (temp rh ws rn pres G : ℝ) : ℝ :=
  let CP : ℝ := 1.013e-3
  let lam := 2.501 - 0.002361 * temp
  let gam := CP * pres / (0.622 * lam)
  let es := 0.6108 * Real.exp (17.27 * temp / (temp + 237.3))
  let ea := rh / 100 * es
  let s := (4098 * es) / (temp + 237.3) ^ 2
  let pet_factor : ℝ := 37
  let u2 := (4.87 / Real.log (67.8 * 10 - 5.42)) * ws
  max ((0.408 * s * (rn - G) + gam * pet_factor / (temp + 273) * u2 * (es - ea))
        / (s + gam * (1 + 0.34 * u2))) 0

/-- `calculate_penman_monteith` from the notebook, over full
(time, y, x) fields: deep-copy `rn` into `G`, run the daylight-dependent
slice-assignment loop, then evaluate the hourly Penman-Monteith equation
element-wise, reading `rn` and `G` through their respective references. -/
noncomputable def calculate_penman_monteith (temp rh ws rn pres : GridF)
    (timeseries : List Timestamp) (lookup : ℕ → TimeOfDay × TimeOfDay)
    (dst : Timestamp → Bool) : GridF :=
  let s := gLoop timeseries (get_daylight_factors timeseries lookup dst)
    (fun _ => rn)
  fun t y x =>
    pm_formula (temp t y x) (rh t y x) (ws t y x) (s Ref.rref t y x)
      (pres t y x) (s Ref.gref t y x)

/-- The element-wise body of `calculate_makkink`: constants and derived
values as in the notebook, the Makkink equation and the final `clip(min=0)`. -/
noncomputable def makkink_formula (temp rs pres : ℝ) : ℝ :=
  let CP : ℝ := 1.013e-3
  let lam := 2.501 - 0.002361 * temp
  let gam := (CP * pres) / (0.622 * lam)
  let es := 0.6108 * Real.exp (17.27 * temp / (temp + 237.3))
  let s := (4098 * es) / (temp + 237.3) ^ 2
  max ((0.65 * s * rs) / (lam * (s + gam))) 0

/-- `calculate_makkink` from the notebook, over full (time, y, x) fields:
the Makkink equation is evaluated element-wise. -/
noncomputable def calculate_makkink (temp rs pres : GridF) : GridF :=
  fun t y x => makkink_formula (temp t y x) (rs t y x) (pres t y x)

/-- Modelled from the spec wording of C4: the Makkink equation
`max(0, (0.65·s·rs) / (λ·(s+γ)))` with
`λ = 2.501 − 0.002361·T`, `γ = (1.013e-3·P)/(0.622·λ)`,
`es = 0.6108·exp(17.27·T/(T+237.3))` and `s = 4098·es/(T+237.3)²`. -/
noncomputable def makkink_spec (T rs P : ℝ) : ℝ :=
  let lam := 2.501 - 0.002361 * T
  let gam := (1.013e-3 * P) / (0.622 * lam)
  let es := 0.6108 * Real.exp (17.27 * T / (T + 237.3))
  let s := 4098 * es / (T + 237.3) ^ 2
  max 0 ((0.65 * s * rs) / (lam * (s + gam)))

/-- Modelled from the spec wording of C5: the hourly Penman-Monteith
equation `max(0, [0.408·s·(rn−G) + γ·(37/(T+273))·u2·(es−ea)] /
[s + γ·(1+0.34·u2)])` with `ea = (RH/100)·es` and
`u2 = (4.87/ln(67.8·10 − 5.42))·ws`. -/
noncomputable def penman_monteith_spec (T RH ws rn P G : ℝ) : ℝ :=
  let lam := 2.501 - 0.002361 * T
  let gam := (1.013e-3 * P) / (0.622 * lam)
  let es := 0.6108 * Real.exp (17.27 * T / (T + 237.3))
  let ea := RH / 100 * es
  let s := 4098 * es / (T + 237.3) ^ 2
  let u2 := (4.87 / Real.log (67.8 * 10 - 5.42)) * ws
  max 0 ((0.408 * s * (rn - G) + gam * (37 / (T + 273)) * u2 * (es - ea))
        / (s + gam * (1 + 0.34 * u2)))

theorem gLoopAux_rref (timeseries : List Timestamp) :
    ∀ (fs : List (ℚ × ℚ)) (i : ℕ) (s : Store),
      gLoopAux timeseries fs i s Ref.rref = s Ref.rref := by
  intro fs
  induction fs with
  | nil => intro i s; rfl
  | cons p rest ih =>
      intro i s
      rw [gLoopAux, ih]
      simp [writeSlice]

theorem gLoopAux_gref_lt (timeseries : List Timestamp) :
    ∀ (fs : List (ℚ × ℚ)) (i : ℕ) (s : Store) (j : ℕ), j < i →
      gLoopAux timeseries fs i s Ref.gref j = s Ref.gref j := by
  intro fs
  induction fs with
  | nil => intro i s j hj; rfl
  | cons p rest ih =>
      intro i s j hj
      rw [gLoopAux, ih _ _ j (Nat.lt_succ_of_lt hj)]
      simp [writeSlice, Nat.ne_of_lt hj]

theorem gLoopAux_gref_hit (timeseries : List Timestamp) :
    ∀ (fs : List (ℚ × ℚ)) (i : ℕ) (s : Store) (j : ℕ) (hj : j < fs.length),
      gLoopAux timeseries fs i s Ref.gref (i + j)
        = fun y x =>
            (if (fs.get ⟨j, hj⟩).1 ≤ tsHour (timeseries.getD (i + j) ⟨0, 0, 0⟩)
                ∧ tsHour (timeseries.getD (i + j) ⟨0, 0, 0⟩) < (fs.get ⟨j, hj⟩).2
              then (0.1 : ℝ) else 0.5) * s Ref.rref (i + j) y x := by
  intro fs
  induction fs with
  | nil => intro i s j hj; simp at hj
  | cons p rest ih =>
      intro i s j hj
      cases j with
      | zero =>
          simp only [Nat.add_zero, List.get_cons_zero]
          rw [gLoopAux,
            gLoopAux_gref_lt timeseries rest (i + 1) _ i (Nat.lt_succ_self i)]
          simp [writeSlice]
      | succ k =>
          have hk : k < rest.length := by simpa using hj
          rw [gLoopAux, show i + (k + 1) = (i + 1) + k by omega, ih (i + 1) _ k hk]
          simp [writeSlice]

/-- C10: `calculate_penman_monteith` never mutates its `rn` argument: the
G-flux loop writes only through the deep copy's reference, so after the
loop the original `rn` object still holds its input values, and the
`(rn − G)` term of the equation reads exactly those unmodified values. -/
theorem penman_monteith_preserves_rn :
    (∀ (rn : GridF) (timeseries : List Timestamp) (factors : List (ℚ × ℚ)),
      gLoop timeseries factors (fun _ => rn) Ref.rref = rn)
    ∧ (∀ (temp rh ws rn pres : GridF) (timeseries : List Timestamp)
        (lookup : ℕ → TimeOfDay × TimeOfDay) (dst : Timestamp → Bool)
        (t y x : ℕ),
      calculate_penman_monteith temp rh ws rn pres timeseries lookup dst t y x
        = pm_formula (temp t y x) (rh t y x) (ws t y x) (rn t y x) (pres t y x)
            (gLoop timeseries (get_daylight_factors timeseries lookup dst)
              (fun _ => rn) Ref.gref t y x)) := by
  constructor
  · intro rn timeseries factors
    exact gLoopAux_rref timeseries factors 0 (fun _ => rn)
  · intro temp rh ws rn pres timeseries lookup dst t y x
    unfold calculate_penman_monteith gLoop
    rw [gLoopAux_rref]

/-- C6: the soil heat flux used by `calculate_penman_monteith` at timestep
`i` is `0.1 * rn[i]` at every cell when the timestep's decimal hour lies in
`[sunrise, sunset)` of its daylight factors, and `0.5 * rn[i]` otherwise;
the scalar factor depends only on the timestep, and a strictly-daytime
timestep always gets the factor `0.1`. -/
theorem soil_heat_flux_split (rn : GridF) (timeseries : List Timestamp)
    (lookup : ℕ → TimeOfDay × TimeOfDay) (dst : Timestamp → Bool)
    (i y x : ℕ)
    (hi : i < (get_daylight_factors timeseries lookup dst).length) :
    gLoop timeseries (get_daylight_factors timeseries lookup dst)
        (fun _ => rn) Ref.gref i y x
      = (if ((get_daylight_factors timeseries lookup dst).get ⟨i, hi⟩).1
              ≤ tsHour (timeseries.getD i ⟨0, 0, 0⟩)
            ∧ tsHour (timeseries.getD i ⟨0, 0, 0⟩)
              < ((get_daylight_factors timeseries lookup dst).get ⟨i, hi⟩).2
          then (0.1 : ℝ) else 0.5) * rn i y x
    ∧ (((get_daylight_factors timeseries lookup dst).get ⟨i, hi⟩).1
          < tsHour (timeseries.getD i ⟨0, 0, 0⟩)
        ∧ tsHour (timeseries.getD i ⟨0, 0, 0⟩)
          < ((get_daylight_factors timeseries lookup dst).get ⟨i, hi⟩).2 →
      gLoop timeseries (get_daylight_factors timeseries lookup dst)
          (fun _ => rn) Ref.gref i y x = 0.1 * rn i y x)
    ∧ (¬ (((get_daylight_factors timeseries lookup dst).get ⟨i, hi⟩).1
            ≤ tsHour (timeseries.getD i ⟨0, 0, 0⟩)
          ∧ tsHour (timeseries.getD i ⟨0, 0, 0⟩)
            < ((get_daylight_factors timeseries lookup dst).get ⟨i, hi⟩).2) →
      gLoop timeseries (get_daylight_factors timeseries lookup dst)
          (fun _ => rn) Ref.gref i y x = 0.5 * rn i y x) := by
  have hmain : gLoop timeseries (get_daylight_factors timeseries lookup dst)
      (fun _ => rn) Ref.gref i y x
      = (if ((get_daylight_factors timeseries lookup dst).get ⟨i, hi⟩).1
              ≤ tsHour (timeseries.getD i ⟨0, 0, 0⟩)
            ∧ tsHour (timeseries.getD i ⟨0, 0, 0⟩)
              < ((get_daylight_factors timeseries lookup dst).get ⟨i, hi⟩).2
          then (0.1 : ℝ) else 0.5) * rn i y x := by
    have h := gLoopAux_gref_hit timeseries
      (get_daylight_factors timeseries lookup dst) 0 (fun _ => rn) i hi
    rw [Nat.zero_add] at h
    unfold gLoop
    rw [h]
  refine ⟨hmain, ?_, ?_⟩
  · intro hday
    rw [hmain, if_pos ⟨le_of_lt hday.1, hday.2⟩]
  · intro hnight
    rw [hmain, if_neg hnight]

/-- Witness for C6: at the concrete single-timestep series (hour 12,
sunrise factor 7, sunset factor 19, uniform `rn = 10`), the timestep is
strictly inside the daylight window and the flux factor is `0.1`. -/
theorem soil_heat_flux_split_witness :
    0 < (get_daylight_factors demoTimes demoLookup demoDst).length
    ∧ gLoop demoTimes (get_daylight_factors demoTimes demoLookup demoDst)
        (fun _ => fun _ _ _ => (10 : ℝ)) Ref.gref 0 0 0
      = 0.1 * (fun _ _ _ => (10 : ℝ)) 0 0 0 := by
  have hlen : 0 < (get_daylight_factors demoTimes demoLookup demoDst).length := by
    norm_num [get_daylight_factors, demoTimes]
  refine ⟨hlen, (soil_heat_flux_split (fun _ _ _ => (10 : ℝ)) demoTimes demoLookup
    demoDst 0 0 0 hlen).2.1 ?_⟩
  simp only [get_daylight_factors, demoTimes, demoLookup, demoDst, List.map_cons,
    List.map_nil, List.get_cons_zero, List.getD_cons_zero, timeHour, tsHour]
  norm_num

/-- C3: the derived `makkink` and `penman_monteith` fields are nonnegative
at every grid cell and timestep, for every combination of input values
(negative temperature, radiation, humidity, wind or pressure included),
because both equations end in `clip(min=0)`. -/
theorem pet_nonneg :
    (∀ (temp rs pres : GridF) (t y x : ℕ),
      0 ≤ calculate_makkink temp rs pres t y x)
    ∧ (∀ (temp rh ws rn pres : GridF) (timeseries : List Timestamp)
        (lookup : ℕ → TimeOfDay × TimeOfDay) (dst : Timestamp → Bool)
        (t y x : ℕ),
      0 ≤ calculate_penman_monteith temp rh ws rn pres timeseries lookup dst t y x) := by
  constructor
  · intro temp rs pres t y x
    exact le_max_right _ 0
  · intro temp rh ws rn pres timeseries lookup dst t y x
    exact le_max_right _ 0

/-- C4: for every temperature, radiation and pressure, `calculate_makkink`
computes, element-wise, exactly the documented Makkink formula
`max(0, (0.65·s·rs) / (λ·(s+γ)))` with the documented `λ`, `γ`, `es`, `s`. -/
theorem makkink_matches_spec (temp rs pres : GridF) (t y x : ℕ) :
    calculate_makkink temp rs pres t y x
      = makkink_spec (temp t y x) (rs t y x) (pres t y x) := by
  unfold calculate_makkink makkink_formula makkink_spec
  exact max_comm _ _

/-- C5: for every combination of inputs and every soil heat flux value,
the element-wise kernel of `calculate_penman_monteith` is exactly the
documented hourly Penman-Monteith formula
`max(0, [0.408·s·(rn−G) + γ·(37/(T+273))·u2·(es−ea)] / [s + γ·(1+0.34·u2)])`
with `ea = (RH/100)·es` and `u2 = (4.87/ln(67.8·10−5.42))·ws`; and
`calculate_penman_monteith` applies this kernel element-wise with the
loop-computed soil heat flux. -/
theorem penman_monteith_matches_spec :
    (∀ (T RH ws rn P G : ℝ),
      pm_formula T RH ws rn P G = penman_monteith_spec T RH ws rn P G)
    ∧ (∀ (temp rh ws rn pres : GridF) (timeseries : List Timestamp)
        (lookup : ℕ → TimeOfDay × TimeOfDay) (dst : Timestamp → Bool)
        (t y x : ℕ),
      calculate_penman_monteith temp rh ws rn pres timeseries lookup dst t y x
        = penman_monteith_spec (temp t y x) (rh t y x) (ws t y x) (rn t y x)
            (pres t y x)
            (gLoop timeseries (get_daylight_factors timeseries lookup dst)
              (fun _ => rn) Ref.gref t y x)) := by
  have hker : ∀ (T RH ws rn P G : ℝ),
      pm_formula T RH ws rn P G = penman_monteith_spec T RH ws rn P G := by
    intro T RH ws rn P G
    unfold pm_formula penman_monteith_spec
    rw [max_comm]
    congr 1
    ring
  refine ⟨hker, ?_⟩
  intro temp rh ws rn pres timeseries lookup dst t y x
  unfold calculate_penman_monteith gLoop
  rw [gLoopAux_rref, hker]

/-! ### Numeric bounds for the end-to-end scenario (C9)

The scenario fixes temperature 15 °C, so the saturation-vapor-pressure
exponent is `17.27·15/252.3 = 1 + 45/1682`, and the wind-speed adjustment
divides by `log(67.8·10 − 5.42) = log 672.58`.  Rational bounds for both
transcendental values are derived from the decimal bounds on `e`. -/

theorem exp15_lb : (2.791 : ℝ) ≤ Real.exp (17.27 * 15 / (15 + 237.3)) := by
  have harg : (17.27 * 15 / (15 + 237.3) : ℝ) = 1 + 45 / 1682 := by norm_num
  rw [harg, Real.exp_add]
  have h1 : (2.7182818283 : ℝ) ≤ Real.exp 1 := Real.exp_one_gt_d9.le
  have h2 : (1 + 45 / 1682 : ℝ) ≤ Real.exp (45 / 1682) := by
    have h := Real.add_one_le_exp (45 / 1682 : ℝ)
    linarith
  calc (2.791 : ℝ) ≤ 2.7182818283 * (1 + 45 / 1682) := by norm_num
    _ ≤ Real.exp 1 * Real.exp (45 / 1682) :=
        mul_le_mul h1 h2 (by norm_num) (le_trans (by norm_num) h1)

theorem exp15_ub : Real.exp (17.27 * 15 / (15 + 237.3)) ≤ 2.7931 := by
  have harg : (17.27 * 15 / (15 + 237.3) : ℝ) = 1 + 45 / 1682 := by norm_num
  rw [harg, Real.exp_add]
  have h1 : Real.exp 1 ≤ 2.7182818286 := Real.exp_one_lt_d9.le
  have h2 : Real.exp (45 / 1682 : ℝ) ≤ 1682 / 1637 := by
    have ha := Real.add_one_le_exp (-(45 / 1682) : ℝ)
    rw [Real.exp_neg] at ha
    have hpos := Real.exp_pos (45 / 1682 : ℝ)
    have hx : Real.exp (45 / 1682 : ℝ) * (Real.exp (45 / 1682 : ℝ))⁻¹ = 1 :=
      mul_inv_cancel₀ (ne_of_gt hpos)
    nlinarith [mul_nonneg hpos.le
      (show (0 : ℝ) ≤ (Real.exp (45 / 1682 : ℝ))⁻¹ - 1637 / 1682 by linarith)]
  calc Real.exp 1 * Real.exp (45 / 1682 : ℝ) ≤ 2.7182818286 * (1682 / 1637) :=
        mul_le_mul h1 h2 (Real.exp_pos _).le (by norm_num)
    _ ≤ 2.7931 := by norm_num

theorem exp13_eq : Real.exp (13 : ℝ) = Real.exp 1 ^ 13 := by
  rw [← Real.exp_nat_mul]
  norm_num

theorem log672_lb : (6.5 : ℝ) ≤ Real.log (67.8 * 10 - 5.42) := by
  have hx : (67.8 * 10 - 5.42 : ℝ) = 672.58 := by norm_num
  rw [hx, Real.le_log_iff_exp_le (by norm_num : (0 : ℝ) < 672.58)]
  have hsq : Real.exp (6.5 : ℝ) ^ 2 = Real.exp 13 := by
    rw [pow_two, ← Real.exp_add]
    norm_num
  have hb : Real.exp (6.5 : ℝ) ^ 2 ≤ (672.58 : ℝ) ^ 2 := by
    rw [hsq, exp13_eq]
    calc Real.exp 1 ^ 13 ≤ (2.7182818286 : ℝ) ^ 13 :=
          pow_le_pow_left₀ (Real.exp_pos 1).le Real.exp_one_lt_d9.le 13
      _ ≤ (672.58 : ℝ) ^ 2 := by norm_num
  exact le_of_pow_le_pow_left₀ (by norm_num) (by norm_num) hb

theorem log672_ub : Real.log (67.8 * 10 - 5.42) ≤ 6.52 := by
  have hx : (67.8 * 10 - 5.42 : ℝ) = 672.58 := by norm_num
  rw [hx, Real.log_le_iff_le_exp (by norm_num : (0 : ℝ) < 672.58)]
  have hsq : Real.exp (6.52 : ℝ) ^ 2 = Real.exp 13 * Real.exp (1 / 25 : ℝ) := by
    rw [pow_two, ← Real.exp_add, ← Real.exp_add]
    norm_num
  have h1 : (2.7182818283 : ℝ) ^ 13 ≤ Real.exp 13 := by
    rw [exp13_eq]
    exact pow_le_pow_left₀ (by norm_num) Real.exp_one_gt_d9.le 13
  have h2 : (1 + 1 / 25 : ℝ) ≤ Real.exp (1 / 25 : ℝ) := by
    have h := Real.add_one_le_exp (1 / 25 : ℝ)
    linarith
  have hb : (672.58 : ℝ) ^ 2 ≤ Real.exp (6.52 : ℝ) ^ 2 := by
    rw [hsq]
    calc (672.58 : ℝ) ^ 2 ≤ (2.7182818283 : ℝ) ^ 13 * (1 + 1 / 25) := by norm_num
      _ ≤ Real.exp 13 * Real.exp (1 / 25 : ℝ) :=
          mul_le_mul h1 h2 (by norm_num) (le_trans (by positivity) h1)
  exact le_of_pow_le_pow_left₀ (by norm_num) (Real.exp_pos _).le hb

/-- A spatially and temporally uniform field, as in the end-to-end scenario. -/
noncomputable def demoField (c : ℝ) : GridF := fun _ _ _ => c

theorem demo_factors :
    get_daylight_factors demoTimes demoLookup demoDst = [(7, 19)] := by
  simp only [get_daylight_factors, demoTimes, demoLookup, demoDst,
    List.map_cons, List.map_nil, timeHour]
  norm_num

theorem pm_demo_reduction :
    calculate_penman_monteith (demoField 15) (demoField 70) (demoField 3)
        (demoField 10) (demoField 101.3) demoTimes demoLookup demoDst 0 0 0
      = pm_formula 15 70 3 10 101.3 1 := by
  unfold calculate_penman_monteith gLoop
  rw [gLoopAux_rref, demo_factors, gLoopAux, gLoopAux]
  simp only [writeSlice, if_pos rfl, demoField]
  have hcond : ((7 : ℚ) ≤ tsHour (demoTimes.getD 0 ⟨0, 0, 0⟩)
      ∧ tsHour (demoTimes.getD 0 ⟨0, 0, 0⟩) < 19) := by
    simp [tsHour, demoTimes]
    norm_num
  rw [if_pos hcond]
  norm_num

set_option maxHeartbeats 1000000 in
theorem pm_demo_bound :
    0 < pm_formula 15 70 3 10 101.3 1 ∧ pm_formula 15 70 3 10 101.3 1 < 2 := by
  have hE1 := exp15_lb
  have hE2 := exp15_ub
  have hL1 := log672_lb
  have hL2 := log672_ub
  simp only [pm_formula]
  set E := Real.exp (17.27 * 15 / (15 + 237.3)) with hE
  set L := Real.log (67.8 * 10 - 5.42) with hL
  have hLpos : (0 : ℝ) < L := lt_of_lt_of_le (by norm_num) hL1
  set es := (0.6108 : ℝ) * E with hesd
  have hes1 : (1.7047 : ℝ) ≤ es := by rw [hesd]; linarith
  have hes2 : es ≤ 1.7061 := by rw [hesd]; linarith
  have hespos : (0 : ℝ) < es := lt_of_lt_of_le (by norm_num) hes1
  set u := (4.87 / L) * 3 with hud
  have hueq : u = 14.61 / L := by rw [hud]; ring
  have hu1 : (2.2407 : ℝ) ≤ u := by
    rw [hueq, le_div_iff₀ hLpos]; linarith
  have hu2 : u ≤ 2.2477 := by
    rw [hueq, div_le_iff₀ hLpos]; linarith
  have hupos : (0 : ℝ) < u := lt_of_lt_of_le (by norm_num) hu1
  set gv := (1.013e-3 : ℝ) * 101.3 / (0.622 * (2.501 - 0.002361 * 15)) with hgvd
  have hg1 : (0.066912 : ℝ) ≤ gv := by rw [hgvd]; norm_num
  have hg2 : gv ≤ 0.066913 := by rw [hgvd]; norm_num
  have hgpos : (0 : ℝ) < gv := lt_of_lt_of_le (by norm_num) hg1
  set sv := (4098 : ℝ) * es / (15 + 237.3) ^ 2 with hsvd
  have hsv1 : (0.10974 : ℝ) ≤ sv := by
    rw [hsvd, le_div_iff₀ (by norm_num : (0 : ℝ) < (15 + 237.3) ^ 2)]
    linarith
  have hsv2 : sv ≤ 0.10984 := by
    rw [hsvd, div_le_iff₀ (by norm_num : (0 : ℝ) < (15 + 237.3) ^ 2)]
    linarith
  have hsvpos : (0 : ℝ) < sv := lt_of_lt_of_le (by norm_num) hsv1
  have hgu_lb : (0.066912 : ℝ) * 2.2407 ≤ gv * u :=
    mul_le_mul hg1 hu1 (by norm_num) hgpos.le
  have hue_ub : u * es ≤ 2.2477 * 1.7061 :=
    mul_le_mul hu2 hes2 hespos.le (by norm_num)
  have hgue_ub : gv * (u * es) ≤ 0.066913 * (2.2477 * 1.7061) :=
    mul_le_mul hg2 hue_ub (mul_nonneg hupos.le hespos.le) (by norm_num)
  have hgue_pos : (0 : ℝ) < gv * (u * es) :=
    mul_pos hgpos (mul_pos hupos hespos)
  have hN : (0 : ℝ) < 0.408 * sv * (10 - 1)
      + gv * 37 / (15 + 273) * u * (es - 70 / 100 * es) := by
    nlinarith [hgue_pos, hsvpos]
  have hD : (0 : ℝ) < sv + gv * (1 + 0.34 * u) := by
    nlinarith [mul_pos hgpos hupos]
  constructor
  · exact lt_max_iff.mpr (Or.inl (div_pos hN hD))
  · refine max_lt ?_ (by norm_num)
    rw [div_lt_iff₀ hD]
    nlinarith [hgue_ub, hgu_lb, hsv2, hg1]

set_option maxHeartbeats 1000000 in
theorem makkink_demo_bound :
    0 < makkink_formula 15 8 101.3 ∧ makkink_formula 15 8 101.3 < 1.5 := by
  have hE1 := exp15_lb
  have hE2 := exp15_ub
  simp only [makkink_formula]
  set E := Real.exp (17.27 * 15 / (15 + 237.3)) with hE
  set es := (0.6108 : ℝ) * E with hesd
  have hes1 : (1.7047 : ℝ) ≤ es := by rw [hesd]; linarith
  have hes2 : es ≤ 1.7061 := by rw [hesd]; linarith
  have hespos : (0 : ℝ) < es := lt_of_lt_of_le (by norm_num) hes1
  set gv := (1.013e-3 : ℝ) * 101.3 / (0.622 * (2.501 - 0.002361 * 15)) with hgvd
  have hg1 : (0.066912 : ℝ) ≤ gv := by rw [hgvd]; norm_num
  have hg2 : gv ≤ 0.066913 := by rw [hgvd]; norm_num
  have hgpos : (0 : ℝ) < gv := lt_of_lt_of_le (by norm_num) hg1
  set sv := (4098 : ℝ) * es / (15 + 237.3) ^ 2 with hsvd
  have hsv1 : (0.10974 : ℝ) ≤ sv := by
    rw [hsvd, le_div_iff₀ (by norm_num : (0 : ℝ) < (15 + 237.3) ^ 2)]
    linarith
  have hsv2 : sv ≤ 0.10984 := by
    rw [hsvd, div_le_iff₀ (by norm_num : (0 : ℝ) < (15 + 237.3) ^ 2)]
    linarith
  have hsvpos : (0 : ℝ) < sv := lt_of_lt_of_le (by norm_num) hsv1
  have hN : (0 : ℝ) < 0.65 * sv * 8 := by nlinarith [hsvpos]
  have hD : (0 : ℝ) < (2.501 - 0.002361 * 15) * (sv + gv) := by
    nlinarith [hsvpos, hgpos]
  constructor
  · exact lt_max_iff.mpr (Or.inl (div_pos hN hD))
  · refine max_lt ?_ (by norm_num)
    rw [div_lt_iff₀ hD]
    nlinarith [hsv2, hg1]

/-- C9: in the end-to-end scenario (uniform 15 °C, 70 % relative humidity,
3 m/s wind, 10 MJ·m⁻²·step⁻¹ net radiation at a daytime timestep,
101.3 kPa), the Penman-Monteith PET computed by `calculate_penman_monteith`
is strictly between 0 and 2 mm/hour, and for the same temperature and
pressure with 8 MJ·m⁻²·step⁻¹ global radiation the Makkink PET computed by
`calculate_makkink` is strictly positive and below 1.5 mm/hour. -/
theorem pet_demo_bounds :
    0 < calculate_penman_monteith (demoField 15) (demoField 70) (demoField 3)
          (demoField 10) (demoField 101.3) demoTimes demoLookup demoDst 0 0 0
    ∧ calculate_penman_monteith (demoField 15) (demoField 70) (demoField 3)
          (demoField 10) (demoField 101.3) demoTimes demoLookup demoDst 0 0 0 < 2
    ∧ 0 < calculate_makkink (demoField 15) (demoField 8) (demoField 101.3) 0 0 0
    ∧ calculate_makkink (demoField 15) (demoField 8) (demoField 101.3) 0 0 0 < 1.5 := by
  rw [pm_demo_reduction]
  have hmk : calculate_makkink (demoField 15) (demoField 8) (demoField 101.3) 0 0 0
      = makkink_formula 15 8 101.3 := rfl
  rw [hmk]
  exact ⟨pm_demo_bound.1, pm_demo_bound.2, makkink_demo_bound.1, makkink_demo_bound.2⟩
